import Mathlib

/-!
Verification of the exchange-rate monitor (src/app.py).

The source is a single script: a `BankRateFetcher` class with two bank
quote providers (`get_boc_rates`, lines 32-48, and `get_cmb_rates`,
lines 50-67), a cached yfinance history fetch (`get_history`,
lines 103-106), the aggregation of the three results into one snapshot
(lines 109-115), and the trend arithmetic (lines 120-123).

Modelling choices:
* Prices are rationals (the Python floats only undergo the exact
  arithmetic of lines 120-123 at the values the claims mention).
* An upstream interaction is an explicit outcome value: either an
  exception during transport/fetch (`exn` — covering timeouts,
  connection errors and any other raised failure) or a delivered
  response body.  A delivered HTML body is the list of its tables,
  each a list of rows, each row the list of its cells' text
  (`row.find_all('td')`, each cell already read through `.text`).
* Python exceptions inside the `try:` body are embedded with an
  `Except PyErr` computation; the blanket `except: return None`
  of the source maps any `.error` to `none`.
* `str.strip()` is `pyStrip` (drop whitespace both ends);
  the substring test `a in b` is `pyIn`.
-/

namespace App

/-- Exceptions the Python bodies can raise past the explicit checks:
`cols[3]`/`cols[4]` out of range, and `None in <str>`. -/
inductive PyErr where
  | indexError
  | typeError
deriving DecidableEq, Repr

/-- The two-field quote the bank providers return (the dict literals on
lines 46 and 65 of src/app.py). -/
structure QuotePair where
  spot_sell : String
  cash_sell : String
deriving DecidableEq, Repr

/-- `str.strip()`: remove whitespace from both ends. -/
def pyStrip (s : String) : String :=
  String.mk (((s.toList.dropWhile Char.isWhitespace).reverse.dropWhile
    Char.isWhitespace).reverse)

/-- Python's substring test `needle in hay` on strings. -/
def pyIn (needle hay : String) : Bool :=
  decide (needle.toList <:+: hay.toList)

/-- `self.currency_map` (src/app.py lines 24-30): supported currency
codes to localized display names; `.get` on anything else is `None`. -/
def currency_map (code : String) : Option String :=
  if code = "EUR" then some "欧元"
  else if code = "USD" then some "美元"
  else if code = "HKD" then some "港币"
  else if code = "GBP" then some "英镑"
  else if code = "JPY" then some "日元"
  else none

/-- A row of an HTML table: the text of its `td` cells in order. -/
abbrev BocRow := List String

/-- Outcome of the Upstream A interaction: the GET/parse raised, or an
HTML document arrived and parsed into its tables (each a row list). -/
inductive BocOutcome where
  | exn
  | doc (tables : List (List BocRow))

/-- The row test on line 45: `len(cols) > 0 and target_name in
cols[0].text.strip()`. -/
def rowMatches (target : String) (cols : BocRow) : Bool :=
  0 < cols.length && pyIn target (pyStrip (cols.getD 0 ""))

/-- The quote built from a matched row (line 46):
4th and 5th cells (0-indexed 3 and 4), stripped. -/
def rowQuote (cols : BocRow) : QuotePair :=
  { spot_sell := pyStrip (cols.getD 3 ""), cash_sell := pyStrip (cols.getD 4 "") }

/-- The inner `for row in rows:` loop of lines 43-46.  On the first
matching row the function returns the quote from cells 3 and 4; if the
matched row is too short, `cols[3]`/`cols[4]` raises `IndexError`. -/
def bocScanRows (target : String) : List BocRow → Except PyErr (Option QuotePair)
  | [] => .ok none
  | cols :: rest =>
    if rowMatches target cols then
      if 5 ≤ cols.length then .ok (some (rowQuote cols))
      else .error .indexError
    else bocScanRows target rest

/-- The outer `for table in tables:` loop of lines 41-46: the first
row-level result (quote or exception) ends the whole scan. -/
def bocScanTables (target : String) : List (List BocRow) → Except PyErr (Option QuotePair)
  | [] => .ok none
  | t :: ts =>
    match bocScanRows target t with
    | .error e => .error e
    | .ok (some q) => .ok (some q)
    | .ok none => bocScanTables target ts

/-- `BankRateFetcher.get_boc_rates` (src/app.py lines 32-48).  A raised
transport failure, and any exception escaping the body, are collapsed
to `None` by the blanket `except:` on line 48. -/
def get_boc_rates (currency_code : String) (o : BocOutcome) : Option QuotePair :=
  match o with
  | .exn => none
  | .doc tables =>
    match currency_map currency_code with
    | none => none
    | some target =>
      match bocScanTables target tables with
      | .ok r => r
      | .error _ => none

/-- One element of the `body` list of the Upstream B JSON: the three
fields the code reads via `.get`; `none` models an absent key. -/
structure CmbItem where
  ccyNbr : Option String
  rthOfr : Option String
  rtcOfr : Option String
deriving DecidableEq, Repr

/-- The parsed Upstream B JSON object: `body?` is `some items` when the
`body` key is present (holding its list), `none` when it is absent. -/
structure CmbData where
  body? : Option (List CmbItem)

/-- Outcome of the Upstream B interaction: the GET raised, or a response
arrived with a status code and a body that `.json()` either parses
(`.ok`) or fails on (`.error`, the raised parse exception). -/
inductive CmbOutcome where
  | exn
  | resp (status : Nat) (parse : Except Unit CmbData)

/-- The item test on line 64: `target_name in item.get('ccyNbr', '')`. -/
def itemMatches (target : String) (i : CmbItem) : Bool :=
  pyIn target (i.ccyNbr.getD "")

/-- The `for item in data['body']:` loop of lines 63-65.  When
`target_name` is `None` (unsupported code) the first iteration's
`None in <str>` raises `TypeError`. -/
def cmbScan (target : Option String) : List CmbItem → Except PyErr (Option QuotePair)
  | [] => .ok none
  | i :: rest =>
    match target with
    | none => .error .typeError
    | some t =>
      if itemMatches t i then
        .ok (some { spot_sell := i.rthOfr.getD "N/A", cash_sell := i.rtcOfr.getD "N/A" })
      else cmbScan target rest

/-- `BankRateFetcher.get_cmb_rates` (src/app.py lines 50-67): non-200
status returns `None` (line 59); a missing `body` key falls through to
`return None` (line 66); the blanket `except:` on line 67 collapses the
transport, parse and loop exceptions to `None`. -/
def get_cmb_rates (currency_code : String) (o : CmbOutcome) : Option QuotePair :=
  match o with
  | .exn => none
  | .resp status parse =>
    if status ≠ 200 then none
    else
      match parse with
      | .error _ => none
      | .ok data =>
        match data.body? with
        | none => none
        | some items =>
          match cmbScan (currency_map currency_code) items with
          | .ok r => r
          | .error _ => none

/-- Outcome of the yfinance time-series fetch: either the upstream
interaction fails, or it delivers the `Close` prices in order. -/
inductive HistOutcome where
  | failure
  | ok (closes : List ℚ)

/-- Modelled from the spec: the body of the yfinance call
`yf.Ticker(ticker).history(period=..., interval=...)` (src/app.py
line 105) lives in the yfinance library, not in src/; per the spec,
"network/parse failures produce an empty sequence rather than
propagating". -/
def yf_history (o : HistOutcome) : List ℚ :=
  match o with
  | .failure => []
  | .ok closes => closes

/-- `get_history` (src/app.py lines 103-106): returns whatever the
yfinance call produces for the given ticker/period/interval. -/
def get_history (_ticker _period _interval : String) (o : HistOutcome) : List ℚ :=
  yf_history o

/-- The unified result of one aggregation cycle (spec's `RateSnapshot`):
the series (line 110) and the two bank quotes (lines 114-115). -/
structure RateSnapshot where
  series : List ℚ
  boc : Option QuotePair
  cmb : Option QuotePair
deriving DecidableEq

/-- The aggregation of src/app.py lines 109-115: one history fetch and
one call to each bank provider, each given its own upstream outcome. -/
def buildSnapshot (currency ticker period interval : String)
    (ho : HistOutcome) (bo : BocOutcome) (co : CmbOutcome) : RateSnapshot :=
  { series := get_history ticker period interval ho
    boc := get_boc_rates currency bo
    cmb := get_cmb_rates currency co }

/-- `current_price` (line 120): `hist_data['Close'].iloc[-1] if not
hist_data.empty else 0`. -/
def current_price (closes : List ℚ) : ℚ :=
  closes.getLast?.getD 0

/-- `prev_price` (line 121): `hist_data['Close'].iloc[0] if not
hist_data.empty else 0`. -/
def prev_price (closes : List ℚ) : ℚ :=
  closes.head?.getD 0

/-- `delta` (line 122): `current_price - prev_price`. -/
def delta (closes : List ℚ) : ℚ :=
  current_price closes - prev_price closes

/-- `delta_percent` (line 123): `(delta / prev_price) * 100 if
prev_price != 0 else 0`. -/
def delta_percent (closes : List ℚ) : ℚ :=
  if prev_price closes ≠ 0 then delta closes / prev_price closes * 100 else 0

/-! ## Helper lemmas (shared) -/

/-- The BOC row scan returns the quote of the first matching row when
that row has at least five cells, whatever comes after it. -/
theorem bocScanRows_first_match (target : String) (pre : List BocRow) (cols : BocRow)
    (post : List BocRow) (hpre : ∀ r ∈ pre, rowMatches target r = false)
    (hrow : rowMatches target cols = true) (hlen : 5 ≤ cols.length) :
    bocScanRows target (pre ++ cols :: post) = .ok (some (rowQuote cols)) := by
  induction pre with
  | nil => simp [bocScanRows, hrow, hlen]
  | cons r rs ih =>
    have hr : rowMatches target r = false := hpre r (List.mem_cons_self r rs)
    simpa [bocScanRows, hr] using ih fun x hx => hpre x (List.mem_cons_of_mem r hx)

/-- The CMB item scan (with a supported, hence non-`None`, target)
returns the quote of the first matching item, whatever comes after. -/
theorem cmbScan_first_match (target : String) (pre : List CmbItem) (i : CmbItem)
    (post : List CmbItem) (hpre : ∀ j ∈ pre, itemMatches target j = false)
    (hi : itemMatches target i = true) :
    cmbScan (some target) (pre ++ i :: post) =
      .ok (some { spot_sell := i.rthOfr.getD "N/A", cash_sell := i.rtcOfr.getD "N/A" }) := by
  induction pre with
  | nil => simp [cmbScan, hi]
  | cons j js ih =>
    have hj : itemMatches target j = false := hpre j (List.mem_cons_self j js)
    simpa [cmbScan, hj] using ih fun x hx => hpre x (List.mem_cons_of_mem j hx)

/-! ## Claim theorems -/

/-- C1: for every currency code and every upstream outcome (exception
during fetch/parse, or any delivered document/response, well-formed or
not), each bank quote provider returns either a quote pair or the
absent marker `none`; in the embedding both functions are total into
`Option QuotePair`, the blanket `except:` mapping every raised
exception of the body to `none`. -/
theorem providers_never_propagate (c : String) (ob : BocOutcome) (oc : CmbOutcome) :
    ((∃ q, get_boc_rates c ob = some q) ∨ get_boc_rates c ob = none) ∧
    ((∃ q, get_cmb_rates c oc = some q) ∨ get_cmb_rates c oc = none) := by
  constructor
  · cases h : get_boc_rates c ob
    · exact Or.inr rfl
    · exact Or.inl ⟨_, rfl⟩
  · cases h : get_cmb_rates c oc
    · exact Or.inr rfl
    · exact Or.inl ⟨_, rfl⟩

/-- C2: on a non-empty series, `current_price` is the last close,
`prev_price` the first, `delta` their difference, and (when the
reference is non-zero, the guarded case of line 123) `delta_percent`
is `delta / prev_price * 100`; on the concrete series 100 then 105
the results are 105, 100, 5 and 5. -/
theorem trend_nonempty (l : List ℚ) (h : l ≠ []) :
    current_price l = l.getLast h ∧
    prev_price l = l.head h ∧
    delta l = current_price l - prev_price l ∧
    (prev_price l ≠ 0 → delta_percent l = delta l / prev_price l * 100) ∧
    current_price [100, 105] = 105 ∧ prev_price [100, 105] = 100 ∧
    delta [100, 105] = 5 ∧ delta_percent [100, 105] = 5 := by
  refine ⟨?_, ?_, rfl, ?_, ?_, ?_, ?_, ?_⟩
  · simp [current_price, List.getLast?_eq_getLast l h]
  · simp [prev_price, List.head?_eq_head h]
  · intro h0
    simp [delta_percent, h0]
  · norm_num [current_price]
  · norm_num [prev_price]
  · norm_num [delta, current_price, prev_price]
  · norm_num [delta_percent, delta, current_price, prev_price]

/-- Witness for C2 at the concrete two-sample series. -/
theorem trend_nonempty_witness :
    ([100, 105] : List ℚ) ≠ [] ∧ delta ([100, 105] : List ℚ) = 5 :=
  ⟨by simp, (trend_nonempty [100, 105] (by simp)).2.2.2.2.2.2.1⟩

/-- C3 counterexample: on the unsupported currency code "AAA", both
providers silently return the absent marker `none` — even on concrete
well-formed upstream responses that contain quotable rows — rather
than signalling any descriptive failure (their result type has no
failure channel, and the absent marker is indistinguishable from a
missing row). -/
theorem unsupported_code_counterexample :
    get_boc_rates "AAA" (.doc [[["美元", "1", "2", "703.5", "707.2"]]]) = none ∧
    get_cmb_rates "AAA"
      (.resp 200 (.ok ⟨some [⟨some "美元", some "7.1", some "7.2"⟩]⟩)) = none := by
  exact ⟨by decide, by decide⟩

/-- C3 amended: when a bank quote provider is passed a currency code
outside the supported set, it silently returns the absent marker
`none` for every upstream outcome; no descriptive failure reaches the
caller (BOC returns early at line 39; CMB either finds no match in an
empty body or raises `TypeError` at line 64, swallowed by line 67). -/
theorem unsupported_code_silent_none (c : String) (hc : currency_map c = none)
    (ob : BocOutcome) (oc : CmbOutcome) :
    get_boc_rates c ob = none ∧ get_cmb_rates c oc = none := by
  constructor
  · cases ob with
    | exn => rfl
    | doc tables => simp [get_boc_rates, hc]
  · cases oc with
    | exn => rfl
    | resp status parse =>
      rcases parse with e | data
      · simp [get_cmb_rates]
      · rcases hb : data.body? with _ | items
        · simp [get_cmb_rates, hb]
        · cases items with
          | nil => simp [get_cmb_rates, hb, cmbScan]
          | cons i rest => simp [get_cmb_rates, hb, hc, cmbScan]

/-- Witness for C3's amended theorem at the concrete code "AAA". -/
theorem unsupported_code_silent_none_witness :
    currency_map "AAA" = none ∧
    (get_boc_rates "AAA" .exn = none ∧ get_cmb_rates "AAA" .exn = none) :=
  ⟨by decide, unsupported_code_silent_none "AAA" (by decide) .exn .exn⟩

/-- C4: for every symbol and window preset a failed time-series fetch
yields the empty list, and the snapshot construction is a total
function whose worst case (failed fetch, both bank calls raising) is
the snapshot with empty series and both quotes absent. -/
theorem snapshot_worst_case (currency ticker period interval : String) :
    get_history ticker period interval .failure = [] ∧
    buildSnapshot currency ticker period interval .failure .exn .exn =
      { series := [], boc := none, cmb := none } :=
  ⟨rfl, rfl⟩

/-- C5: on the empty series all four trend values are the zero
sentinel, with no division performed. -/
theorem trend_empty :
    current_price [] = 0 ∧ prev_price [] = 0 ∧
    delta [] = 0 ∧ delta_percent [] = 0 := by
  refine ⟨rfl, rfl, ?_, ?_⟩
  · norm_num [delta, current_price, prev_price]
  · simp [delta_percent, prev_price]

/-- C6: on any non-empty series whose first price (the reference) is 0
the guarded division yields `delta_percent = 0`; in particular on the
series 0 then 3. -/
theorem trend_zero_reference (l : List ℚ) (h : l ≠ []) (h0 : l.head h = 0) :
    delta_percent l = 0 ∧ delta_percent [0, 3] = 0 := by
  constructor
  · have hp : prev_price l = 0 := by
      simp [prev_price, List.head?_eq_head h, h0]
    simp [delta_percent, hp]
  · norm_num [delta_percent, prev_price]

/-- Witness for C6 at the concrete series 0 then 3. -/
theorem trend_zero_reference_witness :
    delta_percent ([0, 3] : List ℚ) = 0 :=
  (trend_zero_reference [0, 3] (by simp) rfl).1

/-- C7: when the document contains a row whose first cell contains the
requested currency's localized name (the first such row, with its five
columns present), `get_boc_rates` returns the quote whose `spot_sell`
is the stripped text of the row's 4th column (index 3) and whose
`cash_sell` is the stripped text of its 5th column (index 4). -/
theorem boc_row_extraction (c target : String) (hm : currency_map c = some target)
    (pre : List BocRow) (cols : BocRow) (post : List BocRow)
    (hpre : ∀ r ∈ pre, rowMatches target r = false)
    (hrow : rowMatches target cols = true) (hlen : 5 ≤ cols.length) :
    get_boc_rates c (.doc [pre ++ cols :: post]) =
      some { spot_sell := pyStrip (cols.getD 3 "")
             cash_sell := pyStrip (cols.getD 4 "") } := by
  simp [get_boc_rates, hm, bocScanTables,
    bocScanRows_first_match target pre cols post hpre hrow hlen, rowQuote]

/-- Witness for C7: a concrete document with a non-matching row then
the USD row. -/
theorem boc_row_extraction_witness :
    rowMatches "美元" ["美元(USD)", "1", "2", "703.5", "707.2"] = true ∧
    get_boc_rates "USD"
        (.doc [[["港币(HKD)", "a", "b", "c", "d"],
                ["美元(USD)", "1", "2", "703.5", "707.2"]]]) =
      some { spot_sell := "703.5", cash_sell := "707.2" } :=
  ⟨by decide,
    boc_row_extraction "USD" "美元" (by decide)
      [["港币(HKD)", "a", "b", "c", "d"]]
      ["美元(USD)", "1", "2", "703.5", "707.2"] []
      (by decide) (by decide) (by decide)⟩

/-- C8: for a supported currency code, a 200 response whose JSON parses
but has no `body` key yields `none`, and any non-200 response yields
`none` whatever its body. -/
theorem cmb_missing_body_absent (c : String) (_hc : (currency_map c).isSome = true)
    (status : Nat) (hs : status ≠ 200) (parse : Except Unit CmbData) :
    get_cmb_rates c (.resp 200 (.ok ⟨none⟩)) = none ∧
    get_cmb_rates c (.resp status parse) = none := by
  constructor
  · simp [get_cmb_rates]
  · simp [get_cmb_rates, hs]

/-- Witness for C8 at the code "EUR" and status 404. -/
theorem cmb_missing_body_absent_witness :
    (currency_map "EUR").isSome = true ∧ (404 : Nat) ≠ 200 ∧
    (get_cmb_rates "EUR" (.resp 200 (.ok ⟨none⟩)) = none ∧
     get_cmb_rates "EUR" (.resp 404 (.ok ⟨none⟩)) = none) :=
  ⟨by decide, by decide,
    cmb_missing_body_absent "EUR" (by decide) 404 (by decide) (.ok ⟨none⟩)⟩

/-- C9: when the body's first matching record exists, `get_cmb_rates`
returns a present quote built with `.get(..., 'N/A')`: a field the
record lacks comes out as the literal placeholder string "N/A", not as
the absent marker. -/
theorem cmb_missing_rate_placeholder (c target : String)
    (hm : currency_map c = some target)
    (pre : List CmbItem) (i : CmbItem) (post : List CmbItem)
    (hpre : ∀ j ∈ pre, itemMatches target j = false)
    (hi : itemMatches target i = true) :
    get_cmb_rates c (.resp 200 (.ok ⟨some (pre ++ i :: post)⟩)) =
      some { spot_sell := i.rthOfr.getD "N/A", cash_sell := i.rtcOfr.getD "N/A" } ∧
    (i.rthOfr = none →
      get_cmb_rates c (.resp 200 (.ok ⟨some (pre ++ i :: post)⟩)) =
        some { spot_sell := "N/A", cash_sell := i.rtcOfr.getD "N/A" }) ∧
    (i.rtcOfr = none →
      get_cmb_rates c (.resp 200 (.ok ⟨some (pre ++ i :: post)⟩)) =
        some { spot_sell := i.rthOfr.getD "N/A", cash_sell := "N/A" }) := by
  have hmain : get_cmb_rates c (.resp 200 (.ok ⟨some (pre ++ i :: post)⟩)) =
      some { spot_sell := i.rthOfr.getD "N/A", cash_sell := i.rtcOfr.getD "N/A" } := by
    simp [get_cmb_rates, hm, cmbScan_first_match target pre i post hpre hi]
  refine ⟨hmain, ?_, ?_⟩
  · intro hr
    simpa [hr] using hmain
  · intro hr
    simpa [hr] using hmain

/-- Witness for C9: the EUR record carries a name but neither rate
field; the result is a present quote of two "N/A" placeholders. -/
theorem cmb_missing_rate_placeholder_witness :
    itemMatches "欧元" ⟨some "欧元(EUR)", none, none⟩ = true ∧
    get_cmb_rates "EUR"
        (.resp 200 (.ok ⟨some [⟨some "欧元(EUR)", none, none⟩]⟩)) =
      some { spot_sell := "N/A", cash_sell := "N/A" } :=
  ⟨by decide,
    (cmb_missing_rate_placeholder "EUR" "欧元" (by decide)
      [] ⟨some "欧元(EUR)", none, none⟩ []
      (by decide) (by decide)).1⟩

/-- C10: the scan runs over tables and rows in document order and the
first matching row alone determines the result: with arbitrary further
rows `post` and further tables `ts` after it, the result equals the
result on the document truncated right after that row, and is that
row's quote. -/
theorem boc_first_match_wins (c target : String) (hm : currency_map c = some target)
    (pre : List BocRow) (cols : BocRow)
    (hpre : ∀ r ∈ pre, rowMatches target r = false)
    (hrow : rowMatches target cols = true) (hlen : 5 ≤ cols.length)
    (post : List BocRow) (ts : List (List BocRow)) :
    get_boc_rates c (.doc ((pre ++ cols :: post) :: ts)) = some (rowQuote cols) ∧
    get_boc_rates c (.doc ((pre ++ cols :: post) :: ts)) =
      get_boc_rates c (.doc [pre ++ [cols]]) := by
  have h1 : get_boc_rates c (.doc ((pre ++ cols :: post) :: ts)) = some (rowQuote cols) := by
    simp [get_boc_rates, hm, bocScanTables,
      bocScanRows_first_match target pre cols post hpre hrow hlen]
  have h2 : get_boc_rates c (.doc [pre ++ [cols]]) = some (rowQuote cols) := by
    simp [get_boc_rates, hm, bocScanTables,
      bocScanRows_first_match target pre cols [] hpre hrow hlen]
  exact ⟨h1, h1.trans h2.symm⟩

/-- Witness for C10: a later matching row (with different figures) and
a later matching table are both ignored; the result is the first
matching row's quote. -/
theorem boc_first_match_wins_witness :
    get_boc_rates "EUR"
        (.doc [[["日元(JPY)", "x", "x", "x", "x"],
                ["欧元(EUR)", "1", "2", "770.1", "773.9"],
                ["欧元(EUR)", "9", "9", "999.9", "999.9"]],
               [["欧元(EUR)", "8", "8", "888.8", "888.8"]]]) =
      some (rowQuote ["欧元(EUR)", "1", "2", "770.1", "773.9"]) :=
  (boc_first_match_wins "EUR" "欧元" (by decide)
    [["日元(JPY)", "x", "x", "x", "x"]]
    ["欧元(EUR)", "1", "2", "770.1", "773.9"]
    (by decide) (by decide) (by decide)
    [["欧元(EUR)", "9", "9", "999.9", "999.9"]]
    [[["欧元(EUR)", "8", "8", "888.8", "888.8"]]]).1

end App
